/-
Verification of the cro-geo-data ingest pipeline core against its
natural-language specification.

The Python sources under `backend/` are shallowly embedded below:
pure data manipulation becomes Lean functions, stateful code becomes
explicit state passing, external collaborators (HTTP, database,
datetime library, subprocess bulk loader) become outcome oracles
passed in as parameters, and exceptions become `Except`.
-/
import Mathlib

namespace CroGeoData

/-! ## Feed parser (`scripts/dkp_downloader.py`)

`Entry`, `_extract_single_entry` and `_extract_entries` of class
`DKPDownloader`.  XML elements are embedded structurally: an element is
either absent (`find` returned `None`) or present with an optional text
payload; the `atom:link` element carries an optional `href` attribute.
`datetime.fromisoformat` is an external collaborator, modelled as a
parameter `fromIso : String → Option Nat` (`none` = raises). -/

/-- `updated` field of `Entry`: the Python code stores either a parsed
datetime or the empty string `""` when the element is absent. -/
inductive PyUpdated where
  | dt (t : Nat)
  | emptyStr
deriving DecidableEq, Repr

/-- `Entry` NamedTuple.  `title` is `Option String` because
`title_elem.text` may be `None` and is stored as-is. -/
structure Entry where
  id : Int
  title : Option String
  url : String
  updated : PyUpdated
deriving DecidableEq, Repr

/-- An XML child element as seen through `ElementTree.find`: present with an
optional text payload. -/
structure RawElem where
  text : Option String
deriving DecidableEq, Repr

/-- The `atom:link` element: its `href` attribute may be absent
(`attrib.get("href", "")` then yields `""`). -/
structure RawLink where
  href : Option String
deriving DecidableEq, Repr

/-- One `atom:entry` node: each child element that
`_extract_single_entry` looks up via `find` may be absent. -/
structure RawEntryNode where
  titleElem : Option RawElem
  linkElem : Option RawLink
  idElem : Option RawElem
  updatedElem : Option RawElem
deriving DecidableEq, Repr

/-- Python `int(s)`: optional surrounding whitespace, optional sign,
then decimal digits; anything else raises `ValueError` (`none`). -/
def pyInt (s : String) : Option Int :=
  let t := s.trim
  if t.startsWith "-" then (t.drop 1).toNat?.map (fun n => -(n : Int))
  else if t.startsWith "+" then (t.drop 1).toNat?.map (fun n => (n : Int))
  else t.toNat?.map (fun n => (n : Int))

/-- `s.rsplit("-", 1)[1]`: the segment after the last `-`; indexing `[1]`
raises `IndexError` (`none`) when `-` does not occur in `s`. -/
def pyRsplitTail (s : String) : Option String :=
  match s.splitOn "-" with
  | [] => none
  | [_] => none
  | parts => parts.getLast?

/-- `s.split(".")[0]`: the prefix of `s` before the first `.`
(`split` always returns at least one segment, so `[0]` never raises). -/
def pyHeadBeforeDot (s : String) : String :=
  (s.splitOn ".").headD ""

/-- `int(id_elem.text.rsplit("-", 1)[1].split(".")[0])` with every raised
exception mapped to `none` (the surrounding `try` catches them). -/
def pyEntryId (s : String) : Option Int :=
  (pyRsplitTail s).bind fun seg => pyInt (pyHeadBeforeDot seg)

/-- `DKPDownloader._extract_single_entry`: returns `none` exactly when the
Python function returns `None`, i.e. on a missing link, empty href, missing
id element, or when any expression inside the `try` block raises
(unparsable id, `id_elem.text is None`, unparsable `updated`). -/
def extract_single_entry (fromIso : String → Option Nat) (e : RawEntryNode) :
    Option Entry :=
  let title : Option String :=
    match e.titleElem with
    | some el => el.text
    | none => some "Unknown"
  match e.linkElem with
  | none => none
  | some link =>
    let url := link.href.getD ""
    if url = "" then none
    else
      match e.idElem with
      | none => none
      | some idEl =>
        match idEl.text with
        | none => none
        | some idTxt =>
          match pyEntryId idTxt with
          | none => none
          | some n =>
            match e.updatedElem with
            | none => some ⟨n, title, url, .emptyStr⟩
            | some uEl =>
              match uEl.text with
              | none => none
              | some uTxt =>
                match fromIso uTxt with
                | none => none
                | some t => some ⟨n, title, url, .dt t⟩

/-- The ascending-id order used by `entries_list.sort(key=lambda e: e.id)`. -/
def entryLe (a b : Entry) : Prop := a.id ≤ b.id

instance : DecidableRel entryLe := fun a b =>
  inferInstanceAs (Decidable (a.id ≤ b.id))

instance : IsTotal Entry entryLe := ⟨fun a b => Int.le_total a.id b.id⟩

instance : IsTrans Entry entryLe := ⟨fun _ _ _ h h' => le_trans h h'⟩

/-- `DKPDownloader._extract_entries`: the `ThreadPoolExecutor` completes the
per-node extractions in an arbitrary order (captured by quantifying over a
permutation of the node list in the theorems), the `None` results are
filtered out, and the survivors are sorted ascending by `id`.  Python's
stable `list.sort` is embedded as insertion sort. -/
def extract_entries (fromIso : String → Option Nat)
    (nodes : List RawEntryNode) : List Entry :=
  List.insertionSort entryLe (nodes.filterMap (extract_single_entry fromIso))

/-! ## Archive downloads (`scripts/dkp_downloader.py`, `scripts/rpj_downloader.py`)

A destination file is `Option String`: `none` means the path does not
exist, `some c` means it exists with content `c`.  One HTTP exchange is
summarised by a `FetchOutcome`: the status check may raise
(`httpx.HTTPStatusError`), or the body stream may raise a
`httpx.RequestError` after delivering some chunks, or the whole body
arrives.  `aiofiles.open(path, "wb")` truncates: the file becomes
`some ""` the moment it is opened. -/

deriving instance DecidableEq for Except

/-- Outcome of one HTTP GET of a file body. -/
inductive FetchOutcome where
  | statusError (m : String)
  | streamFail (delivered : List String) (m : String)
  | success (body : List String)
deriving DecidableEq, Repr

/-- `if chunk: f.write(chunk)` over a chunk list: concatenation of the
non-empty chunks. -/
def writeChunks (chunks : List String) : String :=
  (chunks.filter (fun c => c ≠ "")).foldl (· ++ ·) ""

/-- Result of one downloader invocation: final destination-file state,
raised-or-returned outcome, and how many network calls were made. -/
structure DlResult where
  file : Option String
  outcome : Except String Unit
  calls : Nat
deriving DecidableEq, Repr

/-- `DKPDownloader.download_zip` (batch-archive download): opens the HTTP
stream, checks the status (a status error propagates before the
destination is ever opened), then truncates the destination and streams
chunks to it; on a `httpx.RequestError` the partially written
destination is unlinked before re-raising. -/
def download_zip (outcome : FetchOutcome) (dest : Option String) : DlResult :=
  match outcome with
  | .statusError m => { file := dest, outcome := .error m, calls := 1 }
  | .streamFail _ m => { file := none, outcome := .error m, calls := 1 }
  | .success body =>
      { file := some (writeChunks body), outcome := .ok (), calls := 1 }

/-- `rpj_downloader._download_zip` (single-archive AU/AD download): truncates
the destination first, then performs `client.get`; there is no
`try`/`except` and no unlink, so every failure after the open leaves the
(possibly partially written) destination file in place. -/
def rpj_download_zip (outcome : FetchOutcome) (_dest : Option String) :
    DlResult :=
  match outcome with
  | .statusError m => { file := some "", outcome := .error m, calls := 1 }
  | .streamFail delivered m =>
      { file := some (writeChunks delivered), outcome := .error m, calls := 1 }
  | .success body =>
      { file := some (writeChunks body), outcome := .ok (), calls := 1 }

/-- `DKPDownloader._download_atom_feed`: returns immediately when the feed
file already exists; otherwise streams it, unlinking the partial file on a
`httpx.RequestError` before re-raising. -/
def download_atom_feed (outcome : FetchOutcome) (feedFile : Option String) :
    DlResult :=
  match feedFile with
  | some c => { file := some c, outcome := .ok (), calls := 0 }
  | none =>
    match outcome with
    | .statusError m => { file := none, outcome := .error m, calls := 1 }
    | .streamFail _ m => { file := none, outcome := .error m, calls := 1 }
    | .success body =>
        { file := some (writeChunks body), outcome := .ok (), calls := 1 }

/-! ## Archive extractor (`scripts/extractor.py`)

`extract_dkp` / `extract_au` unzip the archive into a temporary
directory (auto-cleaned on scope exit) and run the `ogr2ogr` bulk
loader — an external collaborator, modelled as an oracle from dataset
type to outcome — once per dataset type, with `check=True` so the first
failure propagates and aborts the remaining types.  Neither function
ever unlinks the zip: the `with zipfile.ZipFile(...)` block only closes
the handle.  The zip file's existence is threaded through explicitly. -/

/-- `DKP_TYPES` module constant. -/
def DKP_TYPES : List String :=
  ["katastarske_opcine", "katastarske_cestice", "nacini_uporabe_zgrada"]

/-- `AU_TYPES` module constant. -/
def AU_TYPES : List String :=
  ["Država", "Županija", "Jedinica lokalne samouprave", "Naselje"]

/-- The per-type loader loop (`for dkp in DKP_TYPES: parse_dkp_gml(...)`,
`for au_type in AU_TYPES: parse_au_gml(...)`): runs the bulk loader on each
type in order, propagating the first failure. -/
def run_loads (loadResult : String → Except String Unit) :
    List String → Except String Unit
  | [] => .ok ()
  | t :: ts =>
    match loadResult t with
    | .error m => .error m
    | .ok () => run_loads loadResult ts

/-- State visible to the extractor: whether the handed-over zip archive
still exists on disk. -/
structure ExtractResult where
  zipExists : Bool
  outcome : Except String Unit
deriving DecidableEq, Repr

/-- `extractor.extract_dkp`: opening a missing path raises
`FileNotFoundError`, an invalid archive raises `BadZipFile`; otherwise the
three DKP types are loaded in order.  On no path is the zip file deleted. -/
def extract_dkp (zipValid : Bool) (loadResult : String → Except String Unit)
    (zipExists : Bool) : ExtractResult :=
  if ¬ zipExists then { zipExists := zipExists, outcome := .error "FileNotFoundError" }
  else if ¬ zipValid then { zipExists := zipExists, outcome := .error "BadZipFile" }
  else { zipExists := zipExists, outcome := run_loads loadResult DKP_TYPES }

/-- `extractor.extract_au`: same scoping as `extract_dkp` over the four
administrative-unit levels.  On no path is the zip file deleted. -/
def extract_au (zipValid : Bool) (loadResult : String → Except String Unit)
    (zipExists : Bool) : ExtractResult :=
  if ¬ zipExists then { zipExists := zipExists, outcome := .error "FileNotFoundError" }
  else if ¬ zipValid then { zipExists := zipExists, outcome := .error "BadZipFile" }
  else { zipExists := zipExists, outcome := run_loads loadResult AU_TYPES }

/-! ## Concurrent batch fetch (`DKPDownloader.scrape`)

`scrape` creates `asyncio.Semaphore(max_concurrent_downloads)` and one
task per feed entry; each task runs `async with semaphore:` around its
download.  The event loop's interleaving is embedded as an explicit
scheduler: a list of steps, each moving one task through
not-started → waiting (task created) → in-flight (semaphore acquired,
download open) → done (scope exited, permit released).  A step whose
precondition does not hold (task not in the right phase, or no permit
free for an acquire) is a no-op, so every step list denotes a
possible execution prefix. -/

/-- Lifecycle phase of one `download_with_semaphore` task. -/
inductive TaskPhase where
  | notStarted
  | waiting
  | inFlight
  | done
deriving DecidableEq, Repr

/-- Scheduler state: free semaphore permits plus the phase of each task. -/
structure ScrapeState where
  permits : Nat
  phases : List TaskPhase
deriving DecidableEq, Repr

/-- One scheduling decision of the event loop, for task `i`. -/
inductive SchedStep where
  | start (i : Nat)
  | acquire (i : Nat)
  | finish (i : Nat)
deriving DecidableEq, Repr

/-- Semantics of one scheduler step.  `acquire` respects
`asyncio.Semaphore`: it fires only when a permit is free, and takes it;
`finish` releases the permit (the `async with` block releases on every
exit path). -/
def applyStep (s : ScrapeState) (st : SchedStep) : ScrapeState :=
  match st with
  | .start i =>
    if s.phases.get? i = some .notStarted then
      { s with phases := s.phases.set i .waiting }
    else s
  | .acquire i =>
    if s.phases.get? i = some .waiting ∧ 0 < s.permits then
      { permits := s.permits - 1, phases := s.phases.set i .inFlight }
    else s
  | .finish i =>
    if s.phases.get? i = some .inFlight then
      { permits := s.permits + 1, phases := s.phases.set i .done }
    else s

/-- Initial state of `scrape` with concurrency bound `k` and `n` entries:
all permits free, no task started. -/
def scrapeInit (k n : Nat) : ScrapeState :=
  { permits := k, phases := List.replicate n .notStarted }

/-- Run a schedule from the initial state. -/
def runSched (k n : Nat) (steps : List SchedStep) : ScrapeState :=
  steps.foldl applyStep (scrapeInit k n)

/-- Number of downloads currently in flight. -/
def inFlightCount (s : ScrapeState) : Nat :=
  s.phases.countP (fun p => decide (p = TaskPhase.inFlight))

/-! ## Run journal and orchestrator
(`cadastral/etl_journaling.py`, `cadastral/tasks.py`)

The database behind the journal, the staging-promotion routine, the
downloaders and GeoServer are collaborators, so one `World` of outcome
oracles drives a run.  The journal row is the explicit state; `INSERT
... RETURNING id` of `start_run` is the creation of the initial row
(journal storage is the collaborator that the row updates are written
through). -/

/-- `status` column of `journal.etl_runs`. -/
inductive RunStatus where
  | running
  | completed
  | failed
deriving DecidableEq, Repr

/-- The journal row for one pipeline run (timestamp columns omitted). -/
structure EtlRun where
  status : RunStatus
  errorMessage : Option String
  downloadsPerformed : Bool
  geoserverPublished : Bool
  recordsInserted : Option Int
  recordsDeleted : Option Int
  recordsUpdated : Option Int
deriving DecidableEq, Repr

/-- `get_journal_summary` totals. -/
structure Summary where
  inserted : Int
  deleted : Int
  updated : Int
deriving DecidableEq, Repr

/-- Outcomes of the external stages touched by one `run_pipeline` call. -/
structure World where
  downloadResult : Except String Unit
  promoteResult : Except String Unit
  publishResult : Except String Unit
  summaryResult : Except String Summary
deriving DecidableEq, Repr

/-- Observable stage invocations of the orchestrator. -/
inductive Event where
  | downloadExtract
  | promote
  | publish
deriving DecidableEq, Repr

/-- `ETLRunTracker.start_run`: the fresh `status='running'` row, recording
the two flags. -/
def start_run (downloadsPerformed geoserverPublished : Bool) : EtlRun :=
  { status := .running, errorMessage := none,
    downloadsPerformed := downloadsPerformed,
    geoserverPublished := geoserverPublished,
    recordsInserted := none, recordsDeleted := none, recordsUpdated := none }

/-- `ETLRunTracker.complete_run`: terminal update of the row. -/
def complete_run (rec : EtlRun) (success : Bool) (errorMessage : Option String)
    (s : Summary) : EtlRun :=
  { rec with
    status := if success then .completed else .failed,
    errorMessage := errorMessage,
    recordsInserted := some s.inserted,
    recordsDeleted := some s.deleted,
    recordsUpdated := some s.updated }

/-- `ETLRunTracker.update_geoserver_status`. -/
def update_geoserver_status (rec : EtlRun) (published : Bool) : EtlRun :=
  { rec with geoserverPublished := published }

/-- Body of the `with track_etl_run(...) as tracker:` block in
`run_pipeline`: the trace of invoked stages, the journal row after any
mid-run `update_geoserver_status`, and the body's outcome.  Downloads run
only under `perform_downloads`; promotion follows unconditionally; a
publication failure is caught locally and only flips
`geoserver_published` to false. -/
def run_pipeline_body (w : World) (performDownloads publishToGeoserver : Bool)
    (rec : EtlRun) : List Event × EtlRun × Except String Unit :=
  match (if performDownloads then w.downloadResult else .ok ()) with
  | .error m => ((if performDownloads then [.downloadExtract] else []), rec, .error m)
  | .ok () =>
    let ev := (if performDownloads then [.downloadExtract] else []) ++ [.promote]
    match w.promoteResult with
    | .error m => (ev, rec, .error m)
    | .ok () =>
      if publishToGeoserver then
        match w.publishResult with
        | .ok () => (ev ++ [.publish], update_geoserver_status rec true, .ok ())
        | .error _ => (ev ++ [.publish], update_geoserver_status rec false, .ok ())
      else (ev, rec, .ok ())

/-- Result of one `run_pipeline` call. -/
structure RunResult where
  events : List Event
  journal : EtlRun
  outcome : Except String Unit
deriving DecidableEq, Repr

/-- `run_pipeline` wrapped in `track_etl_run`: `start_run` opens the row;
the `except` clause records failure and the message and re-raises; the
`finally` clause reads the summary and calls `complete_run` — unless the
summary read itself raises, in which case the failure is only logged and
the row is left as-is.  The body's exception, if any, propagates to the
caller either way. -/
def run_pipeline (w : World) (performDownloads publishToGeoserver : Bool) :
    RunResult :=
  let rec0 := start_run performDownloads publishToGeoserver
  let (events, rec1, bodyRes) :=
    run_pipeline_body w performDownloads publishToGeoserver rec0
  let success := match bodyRes with | .ok () => true | .error _ => false
  let errMsg := match bodyRes with | .ok () => none | .error m => some m
  let rec2 :=
    match w.summaryResult with
    | .error _ => rec1
    | .ok s => complete_run rec1 success errMsg s
  { events := events, journal := rec2, outcome := bodyRes }

/-! ## GeoServer publication (`geoserver_integration/publisher.py`)

The REST service is a collaborator: per catalog index, an oracle gives
the response to the featuretype `POST` and, when reached, to the
fallback `PUT`.  `httpx` raises `RequestError` for transport failures
and `raise_for_status` raises `HTTPStatusError` for error codes; both
are `httpx.HTTPError`, the class the per-layer `except` clause in
`publish_catalog` catches. -/

/-- Response of one `httpx` call: a status code, or a transport-level
failure raised at the call itself. -/
inductive HttpResp where
  | status (code : Nat)
  | transportError (m : String)
deriving DecidableEq, Repr

/-- Remote responses for the publication of one catalog, indexed by the
position of the layer in the catalog. -/
structure GsWorld where
  createResp : Nat → HttpResp
  putResp : Nat → HttpResp

/-- What became of one catalog entry. -/
inductive LayerOutcome where
  | created
  | updatedViaPut
  | httpErrorLogged (m : String)
  | noop
deriving DecidableEq, Repr

/-- `GeoServerPublisher._publish_layer` for the layer at index `i`:
the HTTP calls it performs, and its outcome — `201` publishes, `409`
falls back to a `PUT` (whose status is not checked), any other code goes
through `raise_for_status` (raising only for `>= 400`), and a transport
failure raises at the offending call. -/
def publish_layer (w : GsWorld) (i : Nat) :
    List String × Except String LayerOutcome :=
  match w.createResp i with
  | .transportError m => (["POST"], .error m)
  | .status 201 => (["POST"], .ok .created)
  | .status 409 =>
    match w.putResp i with
    | .transportError m => (["POST", "PUT"], .error m)
    | .status _ => (["POST", "PUT"], .ok .updatedViaPut)
  | .status c =>
    (["POST"], if 400 ≤ c then .error ("HTTPStatusError " ++ toString c) else .ok .noop)

/-- The per-layer loop of `GeoServerPublisher.publish_catalog`: every
raised `httpx.HTTPError` is caught and logged, and the loop moves on to
the next catalog entry. -/
def publish_catalog (w : GsWorld) (n : Nat) : List LayerOutcome :=
  (List.range n).map fun i =>
    match (publish_layer w i).2 with
    | .ok o => o
    | .error m => .httpErrorLogged m

/-- Bounding box as assembled by `_compute_bbox` (coordinates kept exact:
the function only moves values and substitutes `0.0`, it never computes
with them). -/
structure BBox where
  minx : Rat
  miny : Rat
  maxx : Rat
  maxy : Rat
  crs : String
deriving DecidableEq, Repr

/-- Python `float(x or 0.0)` for a nullable coordinate `x`: `None` — and,
vacuously, `0.0` itself — becomes `0.0`. -/
def coalesceZero (x : Option Rat) : Rat :=
  match x with
  | none => 0
  | some v => if v = 0 then 0 else v

/-- `GeoServerPublisher._compute_bbox` on the fetched row: `fetchone`
returning no row, or a row of SQL `NULL`s (the `ST_Extent` of an empty
table), yields the all-zero box; a present coordinate is passed
through. -/
def compute_bbox
    (row : Option (Option Rat × Option Rat × Option Rat × Option Rat)) :
    BBox :=
  match row with
  | none => { minx := 0, miny := 0, maxx := 0, maxy := 0, crs := "EPSG:3765" }
  | some (a, b, c, d) =>
    { minx := coalesceZero a, miny := coalesceZero b,
      maxx := coalesceZero c, maxy := coalesceZero d, crs := "EPSG:3765" }

/-! ## Concrete worlds used to instantiate the theorems -/

/-- A sample `get_journal_summary` result. -/
def demoSummary : Summary := ⟨7, 2, 5⟩

/-- A run whose staging promotion throws a database error. -/
def wPromoteFail : World :=
  ⟨.ok (), .error "promotion failed", .ok (), .ok demoSummary⟩

/-- A run whose GeoServer publication throws. -/
def wPublishFail : World :=
  ⟨.ok (), .ok (), .error "geoserver down", .ok demoSummary⟩

/-- A trivially succeeding `datetime.fromisoformat` oracle. -/
def demoFromIso : String → Option Nat := fun _ => some 0

/-- A well-formed feed entry node with id 123456. -/
def nodeA : RawEntryNode :=
  ⟨some ⟨some "KO A"⟩, some ⟨some "https://x/ko-123456.zip"⟩,
   some ⟨some "ko-123456.zip"⟩, none⟩

/-- A well-formed feed entry node with id 789012. -/
def nodeB : RawEntryNode :=
  ⟨some ⟨some "KO B"⟩, some ⟨some "https://x/ko-789012.zip"⟩,
   some ⟨some "ko-789012.zip"⟩, none⟩

/-- A malformed feed entry node: no `atom:link` child. -/
def nodeBad : RawEntryNode := ⟨some ⟨some "broken"⟩, none, none, none⟩

/-- A three-layer GeoServer catalog: layer 0 absent (create → 201),
layer 1 present (create → 409, `PUT` fallback answers 200), layer 2
unreachable (transport failure). -/
def gsDemo : GsWorld :=
  { createResp := fun j =>
      if j = 0 then .status 201
      else if j = 1 then .status 409
      else .transportError "connection reset",
    putResp := fun _ => .status 200 }

/-! ## Theorems -/

/-- Updating one position of a list shifts `countP` by the predicate values
of the old and new elements. -/
theorem countP_set_add {α : Type} (P : α → Bool) :
    ∀ (l : List α) (i : Nat) (a v : α), l.get? i = some a →
      (l.set i v).countP P + (if P a then 1 else 0)
        = l.countP P + (if P v then 1 else 0) := by
  intro l
  induction l with
  | nil => intro i a v h; simp at h
  | cons x xs ih =>
    intro i a v h
    cases i with
    | zero =>
      simp only [List.get?_cons_zero, Option.some_inj] at h
      subst h
      simp only [List.set_cons_zero, List.countP_cons]
      omega
    | succ j =>
      simp only [List.get?_cons_succ] at h
      simp only [List.set_cons_succ, List.countP_cons]
      have := ih j a v h
      omega

/-- One scheduler step preserves the semaphore accounting: the free permits
plus the in-flight downloads always total the concurrency bound. -/
theorem applyStep_invariant (k : Nat) (s : ScrapeState) (st : SchedStep)
    (h : inFlightCount s + s.permits = k) :
    inFlightCount (applyStep s st) + (applyStep s st).permits = k := by
  rcases st with i | i | i
  · simp only [applyStep]
    split
    next hc =>
      have hset := countP_set_add (fun p => decide (p = TaskPhase.inFlight))
        s.phases i .notStarted .waiting hc
      simp only [inFlightCount] at *
      simp only [decide_eq_true_eq] at hset
      simp only [reduceCtorEq, if_false] at hset
      omega
    next => exact h
  · simp only [applyStep]
    split
    next hc =>
      have hset := countP_set_add (fun p => decide (p = TaskPhase.inFlight))
        s.phases i .waiting .inFlight hc.1
      simp only [inFlightCount] at *
      simp only [decide_eq_true_eq] at hset
      simp only [reduceCtorEq, if_false, if_true] at hset
      have hp := hc.2
      omega
    next => exact h
  · simp only [applyStep]
    split
    next hc =>
      have hset := countP_set_add (fun p => decide (p = TaskPhase.inFlight))
        s.phases i .inFlight .done hc
      simp only [inFlightCount] at *
      simp only [decide_eq_true_eq] at hset
      simp only [reduceCtorEq, if_false, if_true] at hset
      omega
    next => exact h

/-- The accounting invariant holds along any schedule. -/
theorem foldl_applyStep_invariant (k : Nat) :
    ∀ (steps : List SchedStep) (s : ScrapeState),
      inFlightCount s + s.permits = k →
      inFlightCount (steps.foldl applyStep s)
        + (steps.foldl applyStep s).permits = k := by
  intro steps
  induction steps with
  | nil => intro s h; simpa using h
  | cons st rest ih =>
    intro s h
    simpa using ih (applyStep s st) (applyStep_invariant k s st h)

/-- The initial `scrape` state has no download in flight. -/
theorem inFlightCount_scrapeInit (k n : Nat) :
    inFlightCount (scrapeInit k n) = 0 := by
  simp only [inFlightCount, scrapeInit, List.countP_eq_zero]
  intro a ha
  simp [List.eq_of_mem_replicate ha]

/-- C8: for every batch of entries handed to `scrape` with
`max_concurrent_downloads = k` and every interleaving the event loop can
produce, the number of simultaneously in-flight downloads never exceeds
`k` (the semaphore's free permits and the in-flight downloads always sum
to `k`). -/
theorem scrape_inflight_bounded (k n : Nat) (steps : List SchedStep) :
    inFlightCount (runSched k n steps) ≤ k := by
  have hinit : inFlightCount (scrapeInit k n) + (scrapeInit k n).permits = k := by
    rw [inFlightCount_scrapeInit]; simp [scrapeInit]
  have h := foldl_applyStep_invariant k steps (scrapeInit k n) hinit
  unfold runSched
  omega

/-- C1: for every run of `run_pipeline` whose download stage does not
itself raise when performed, skipping `perform_downloads` means the
download/extract stage is never invoked, skipping `publish_to_geoserver`
means the publication step is never invoked, and in every flag
combination (including both flags false) the staging promotion routine
is invoked exactly once — regardless of how promotion or publication
turn out. -/
theorem run_pipeline_stage_invocations (w : World) (d p : Bool)
    (hd : d = true → w.downloadResult = .ok ()) :
    (d = false → (run_pipeline w d p).events.count .downloadExtract = 0)
  ∧ (p = false → (run_pipeline w d p).events.count .publish = 0)
  ∧ (run_pipeline w d p).events.count .promote = 1 := by
  cases d with
  | false =>
    cases p <;>
      rcases hpr : w.promoteResult with m | u <;>
        rcases hpub : w.publishResult with m2 | u2 <;>
          simp [run_pipeline, run_pipeline_body, hpr, hpub,
            List.count_cons, List.count_append]
  | true =>
    have hdl := hd rfl
    cases p <;>
      rcases hpr : w.promoteResult with m | u <;>
        rcases hpub : w.publishResult with m2 | u2 <;>
          simp [run_pipeline, run_pipeline_body, hdl, hpr, hpub,
            List.count_cons, List.count_append]

/-- Instantiation of `run_pipeline_stage_invocations`: downloads
performed and succeeding, publication skipped, promotion failing — the
promotion routine is still invoked exactly once and publication never. -/
theorem run_pipeline_stage_invocations_witness :
    (true = true → wPromoteFail.downloadResult = Except.ok ())
  ∧ ((true = false →
        (run_pipeline wPromoteFail true false).events.count .downloadExtract = 0)
    ∧ (false = false →
        (run_pipeline wPromoteFail true false).events.count .publish = 0)
    ∧ (run_pipeline wPromoteFail true false).events.count .promote = 1) :=
  ⟨fun _ => rfl,
   run_pipeline_stage_invocations wPromoteFail true false (fun _ => rfl)⟩

/-- C2: whenever an exception propagates out of the orchestration body
(and the journal summary read in the `finally` block succeeds), the
run's journal row is updated to status `failed` carrying the
exception's message, and the exception is re-raised to the caller. -/
theorem run_pipeline_failure_journal (w : World) (d p : Bool) (m : String)
    (s : Summary) (hs : w.summaryResult = .ok s)
    (hb : (run_pipeline_body w d p (start_run d p)).2.2 = .error m) :
    (run_pipeline w d p).journal.status = .failed
  ∧ (run_pipeline w d p).journal.errorMessage = some m
  ∧ (run_pipeline w d p).outcome = .error m := by
  rcases he : run_pipeline_body w d p (start_run d p) with ⟨ev, rec1, br⟩
  rw [he] at hb
  simp only at hb
  subst hb
  simp [run_pipeline, he, hs, complete_run]

/-- Instantiation of `run_pipeline_failure_journal` on a run whose
promotion routine throws `"promotion failed"`. -/
theorem run_pipeline_failure_journal_witness :
    (wPromoteFail.summaryResult = Except.ok demoSummary
  ∧ (run_pipeline_body wPromoteFail true true (start_run true true)).2.2
      = Except.error "promotion failed")
  ∧ ((run_pipeline wPromoteFail true true).journal.status = RunStatus.failed
  ∧ (run_pipeline wPromoteFail true true).journal.errorMessage
      = some "promotion failed"
  ∧ (run_pipeline wPromoteFail true true).outcome
      = Except.error "promotion failed") :=
  ⟨⟨rfl, rfl⟩,
   run_pipeline_failure_journal wPromoteFail true true "promotion failed"
     demoSummary rfl rfl⟩

/-- C3: a run whose downloads (when performed) and promotion succeed but
whose publication step raises has the exception caught by the
orchestrator, its journal row's `geoserver_published` set to false, and
its final journal status `completed`, not `failed`. -/
theorem run_pipeline_publish_failure_completed (w : World) (d : Bool)
    (e : String) (s : Summary)
    (hd : d = true → w.downloadResult = .ok ())
    (hpr : w.promoteResult = .ok ())
    (hpub : w.publishResult = .error e)
    (hs : w.summaryResult = .ok s) :
    (run_pipeline w d true).journal.status = .completed
  ∧ (run_pipeline w d true).journal.geoserverPublished = false
  ∧ (run_pipeline w d true).outcome = .ok () := by
  cases d with
  | false =>
    simp [run_pipeline, run_pipeline_body, hpr, hpub, hs, complete_run,
      update_geoserver_status, start_run]
  | true =>
    have hdl := hd rfl
    simp [run_pipeline, run_pipeline_body, hdl, hpr, hpub, hs, complete_run,
      update_geoserver_status, start_run]

/-- Instantiation of `run_pipeline_publish_failure_completed`: downloads
skipped, promotion succeeds, publication throws `"geoserver down"`. -/
theorem run_pipeline_publish_failure_completed_witness :
    ((false = true → wPublishFail.downloadResult = Except.ok ())
  ∧ wPublishFail.promoteResult = Except.ok ()
  ∧ wPublishFail.publishResult = Except.error "geoserver down"
  ∧ wPublishFail.summaryResult = Except.ok demoSummary)
  ∧ ((run_pipeline wPublishFail false true).journal.status = RunStatus.completed
  ∧ (run_pipeline wPublishFail false true).journal.geoserverPublished = false
  ∧ (run_pipeline wPublishFail false true).outcome = Except.ok ()) :=
  ⟨⟨by decide, rfl, rfl, rfl⟩,
   run_pipeline_publish_failure_completed wPublishFail false "geoserver down"
     demoSummary (by decide) rfl rfl rfl⟩

/-- C4: for every feed document and every completion order the thread
pool can produce (any permutation of the entry nodes), `_extract_entries`
returns exactly the successfully extracted entries — as many as there
are valid nodes — sorted ascending by numeric id; and a node with a
missing link, an empty href, a missing id element, or an unparsable
numeric identifier is skipped by `_extract_single_entry`. -/
theorem extract_entries_valid_sorted (fromIso : String → Option Nat)
    (raws perm : List RawEntryNode) (h : perm.Perm raws) :
    (extract_entries fromIso perm).Perm
        (raws.filterMap (extract_single_entry fromIso))
  ∧ List.Sorted entryLe (extract_entries fromIso perm)
  ∧ (extract_entries fromIso perm).length
      = (raws.filterMap (extract_single_entry fromIso)).length
  ∧ (∀ e : RawEntryNode, e.linkElem = none →
      extract_single_entry fromIso e = none)
  ∧ (∀ e : RawEntryNode, ∀ l, e.linkElem = some l → l.href.getD "" = "" →
      extract_single_entry fromIso e = none)
  ∧ (∀ e : RawEntryNode, e.idElem = none →
      extract_single_entry fromIso e = none)
  ∧ (∀ e : RawEntryNode, ∀ idEl txt, e.idElem = some idEl →
      idEl.text = some txt → pyEntryId txt = none →
      extract_single_entry fromIso e = none) := by
  have hperm : (extract_entries fromIso perm).Perm
      (raws.filterMap (extract_single_entry fromIso)) :=
    (List.perm_insertionSort entryLe _).trans
      (h.filterMap (extract_single_entry fromIso))
  refine ⟨hperm, List.sorted_insertionSort entryLe _, hperm.length_eq,
    ?_, ?_, ?_, ?_⟩
  · intro e he
    simp [extract_single_entry, he]
  · intro e l hl hh
    simp [extract_single_entry, hl, hh]
  · intro e he
    cases hl : e.linkElem with
    | none => simp [extract_single_entry, hl]
    | some l =>
      by_cases hu : l.href.getD "" = "" <;>
        simp [extract_single_entry, hl, hu, he]
  · intro e idEl txt hid htxt hpid
    cases hl : e.linkElem with
    | none => simp [extract_single_entry, hl]
    | some l =>
      by_cases hu : l.href.getD "" = "" <;>
        simp [extract_single_entry, hl, hu, hid, htxt, hpid]

/-- Instantiation of `extract_entries_valid_sorted` on the three-node
feed `[nodeBad, nodeA, nodeB]` delivered by the pool in a different
order than the document order `[nodeA, nodeBad, nodeB]`. -/
theorem extract_entries_valid_sorted_witness :
    ([nodeBad, nodeA, nodeB].Perm [nodeA, nodeBad, nodeB])
  ∧ ((extract_entries demoFromIso [nodeBad, nodeA, nodeB]).Perm
        ([nodeA, nodeBad, nodeB].filterMap (extract_single_entry demoFromIso))
    ∧ List.Sorted entryLe (extract_entries demoFromIso [nodeBad, nodeA, nodeB])
    ∧ (extract_entries demoFromIso [nodeBad, nodeA, nodeB]).length
        = ([nodeA, nodeBad, nodeB].filterMap
            (extract_single_entry demoFromIso)).length
    ∧ (∀ e : RawEntryNode, e.linkElem = none →
        extract_single_entry demoFromIso e = none)
    ∧ (∀ e : RawEntryNode, ∀ l, e.linkElem = some l → l.href.getD "" = "" →
        extract_single_entry demoFromIso e = none)
    ∧ (∀ e : RawEntryNode, e.idElem = none →
        extract_single_entry demoFromIso e = none)
    ∧ (∀ e : RawEntryNode, ∀ idEl txt, e.idElem = some idEl →
        idEl.text = some txt → pyEntryId txt = none →
        extract_single_entry demoFromIso e = none)) :=
  ⟨List.Perm.swap nodeA nodeBad [nodeB],
   extract_entries_valid_sorted demoFromIso [nodeA, nodeBad, nodeB]
     [nodeBad, nodeA, nodeB] (List.Perm.swap nodeA nodeBad [nodeB])⟩

/-- C5 counterexample: the single-archive downloader
(`rpj_downloader._download_zip`) interrupted by a connection error after
writing one chunk leaves the partially written destination file on disk
while the error propagates — the destination file does exist after the
failure. -/
theorem rpj_download_zip_keeps_leftover_file :
    (rpj_download_zip (.streamFail ["chunkA"] "connection lost") none).file
      = some "chunkA"
  ∧ ¬ (rpj_download_zip (.streamFail ["chunkA"] "connection lost") none).file
      = none
  ∧ (rpj_download_zip (.streamFail ["chunkA"] "connection lost") none).outcome
      = Except.error "connection lost" := by
  refine ⟨?_, ?_, ?_⟩ <;> decide

/-- C5 (amended): the batch-archive downloader
(`DKPDownloader.download_zip`) deletes the partially written destination
file before re-raising when the body stream fails with a request error;
the single-archive downloader does not (see the counterexample). -/
theorem download_zip_deletes_leftover_on_failure (delivered : List String)
    (m : String) (dest : Option String) :
    (download_zip (.streamFail delivered m) dest).file = none
  ∧ (download_zip (.streamFail delivered m) dest).outcome = Except.error m :=
  ⟨rfl, rfl⟩

/-- C6: `extract_dkp` and `extract_au` never delete the zip archive they
are handed — its existence is unchanged on every path, and in particular
a fully successful extraction still leaves the archive on disk,
contradicting the repository's own tests
(`test_extract_dkp_deletes_zip_after_extraction`,
`test_extract_au_deletes_zip_after_extraction`,
`test_extractor_deletes_zip_on_exception`). -/
theorem extract_leaves_zip_in_place :
    (∀ (zipValid : Bool) (loadResult : String → Except String Unit),
        (extract_dkp zipValid loadResult true).zipExists = true
      ∧ (extract_au zipValid loadResult true).zipExists = true)
  ∧ (extract_dkp true (fun _ => Except.ok ()) true).outcome = Except.ok ()
  ∧ (extract_au true (fun _ => Except.ok ()) true).outcome = Except.ok () := by
  refine ⟨fun v l => ⟨?_, ?_⟩, rfl, rfl⟩
  · unfold extract_dkp
    split
    · rfl
    · split <;> rfl
  · unfold extract_au
    split
    · rfl
    · split <;> rfl

/-- C7 counterexample: the single-archive downloader
(`rpj_downloader.download_zip`) invoked while the destination file
already exists still performs a network call and overwrites the file —
it neither skips the fetch nor returns immediately. -/
theorem rpj_download_zip_refetches_existing :
    (rpj_download_zip (.success ["newbody"]) (some "oldbody")).calls = 1
  ∧ ¬ (rpj_download_zip (.success ["newbody"]) (some "oldbody")).calls = 0
  ∧ (rpj_download_zip (.success ["newbody"]) (some "oldbody")).file
      = some "newbody" := by
  refine ⟨?_, ?_, ?_⟩ <;> decide

/-- C7 (amended): it is the ATOM-feed download
(`DKPDownloader._download_atom_feed`) that is idempotent: when the feed
file already exists it performs zero network calls and returns
immediately with the file untouched; the single-archive AU/AD
downloader re-fetches regardless (see the counterexample). -/
theorem download_atom_feed_skips_when_cached (outcome : FetchOutcome)
    (c : String) :
    download_atom_feed outcome (some c)
      = { file := some c, outcome := Except.ok (), calls := 0 } := rfl

/-- C9: for every catalog and every remote behavior, the publication
loop yields one outcome per catalog entry (a failure for one layer never
aborts the rest); a layer whose create call returns 201 is published, a
layer whose create call returns 409 is retried with a `PUT` update, and
a transport-level failure for a layer is caught and logged. -/
theorem publish_catalog_per_layer (w : GsWorld) (n i : Nat) (hi : i < n) :
    (publish_catalog w n).length = n
  ∧ (w.createResp i = .status 201 →
      (publish_catalog w n)[i]? = some .created)
  ∧ (∀ c, w.createResp i = .status 409 → w.putResp i = .status c →
      (publish_catalog w n)[i]? = some .updatedViaPut)
  ∧ (w.createResp i = .status 409 → "PUT" ∈ (publish_layer w i).1)
  ∧ (∀ m, w.createResp i = .transportError m →
      (publish_catalog w n)[i]? = some (.httpErrorLogged m)) := by
  have hget : ∀ (g : Nat → LayerOutcome),
      ((List.range n).map g)[i]? = some (g i) := by
    intro g
    rw [List.getElem?_map, List.getElem?_range hi]
    rfl
  refine ⟨by simp [publish_catalog], ?_, ?_, ?_, ?_⟩
  · intro hc
    unfold publish_catalog
    rw [hget]
    simp [publish_layer, hc]
  · intro c hc hp
    unfold publish_catalog
    rw [hget]
    simp [publish_layer, hc, hp]
  · intro hc
    cases hp : w.putResp i <;> simp [publish_layer, hc, hp]
  · intro m hc
    unfold publish_catalog
    rw [hget]
    simp [publish_layer, hc]

/-- Instantiation of `publish_catalog_per_layer` on `gsDemo` at the
conflicting layer (index 1): all three layers get an outcome and layer 1
is updated via the `PUT` fallback. -/
theorem publish_catalog_per_layer_witness :
    1 < 3
  ∧ ((publish_catalog gsDemo 3).length = 3
  ∧ (gsDemo.createResp 1 = .status 201 →
      (publish_catalog gsDemo 3)[1]? = some .created)
  ∧ (∀ c, gsDemo.createResp 1 = .status 409 → gsDemo.putResp 1 = .status c →
      (publish_catalog gsDemo 3)[1]? = some .updatedViaPut)
  ∧ (gsDemo.createResp 1 = .status 409 → "PUT" ∈ (publish_layer gsDemo 1).1)
  ∧ (∀ m, gsDemo.createResp 1 = .transportError m →
      (publish_catalog gsDemo 3)[1]? = some (.httpErrorLogged m))) :=
  ⟨by decide, publish_catalog_per_layer gsDemo 3 1 (by decide)⟩

/-- C10: when the bounding-box query yields no row, or a row whose four
extent coordinates are all SQL `NULL` (as for an empty table),
`_compute_bbox` returns the all-zero box in `EPSG:3765` instead of
raising. -/
theorem compute_bbox_empty_table
    (row : Option (Option Rat × Option Rat × Option Rat × Option Rat))
    (h : row = none ∨ row = some (none, none, none, none)) :
    compute_bbox row
      = { minx := 0, miny := 0, maxx := 0, maxy := 0, crs := "EPSG:3765" } := by
  rcases h with h | h <;> subst h <;> rfl

/-- Instantiation of `compute_bbox_empty_table` on the no-row case. -/
theorem compute_bbox_empty_table_witness :
    ((none : Option (Option Rat × Option Rat × Option Rat × Option Rat)) = none
      ∨ (none : Option (Option Rat × Option Rat × Option Rat × Option Rat))
          = some (none, none, none, none))
  ∧ compute_bbox none
      = { minx := 0, miny := 0, maxx := 0, maxy := 0, crs := "EPSG:3765" } :=
  ⟨Or.inl rfl, compute_bbox_empty_table none (Or.inl rfl)⟩

end CroGeoData
